import Mathlib

/-!
Verification development for the Autocalls.uk dynamic-logo geometry code.

Two JavaScript sources are embedded:
* the shared geometry module (`src/utils/geometry.js`), whose functions keep
  their source names (`mapPerformanceToAngle`, `mapBarrierToAngle`, ...);
* the static-generation script, whose inlined copies of those functions are
  embedded under a `Static` suffix (`mapPerformanceToAngleStatic`, ...),
  since the two copies are not identical.

JavaScript numbers on finite values are modelled by ℚ (the exact real-number
semantics of the arithmetic involved; IEEE-754 rounding is not modelled).
Non-finite values (NaN, Infinity) are modelled separately by the `JSNum`
type further below.  Dates are modelled by their epoch-millisecond
timestamps (the value of `Date#getTime`), as the date arithmetic in the
source only ever uses `getTime` differences.
-/

/-- Days in 10 years, exactly 365 days per year (`DAYS_IN_10_YEARS`). -/
def DAYS_IN_10_YEARS : ℚ := 10 * 365

/-- Angle per day of ring rotation (`ANGLE_PER_DAY`). -/
def ANGLE_PER_DAY : ℚ := 360 / DAYS_IN_10_YEARS

/-- Embeds `daysBetween` from `geometry.js`: the two dates are given by
their epoch-millisecond timestamps and the difference is divided by
`1000 * 60 * 60 * 24` (the string-parsing branch of the source is the
identity on the timestamp a parsed string denotes, so it is not modelled). -/
def daysBetween (startDate endDate : ℚ) : ℚ :=
  (endDate - startDate) / (1000 * 60 * 60 * 24)

/-- Embeds `calculateRotationAngle` from `geometry.js`. -/
def calculateRotationAngle (startDate currentDate : ℚ) : ℚ :=
  daysBetween startDate currentDate * ANGLE_PER_DAY

/-- Embeds `calculateObservationTickAngle` from `geometry.js`, including its
dead computation of the current rotation. -/
def calculateObservationTickAngle (startDate observationDate currentDate : ℚ) : ℚ :=
  let daysToObservation := daysBetween startDate observationDate
  let angleAtObservation := daysToObservation * ANGLE_PER_DAY
  let _currentRotation := calculateRotationAngle startDate currentDate;
  -angleAtObservation

/-- First branch body of `mapPerformanceToAngle` in `geometry.js`
(clamped pct ≤ -30). -/
def perfPiece1 (pct : ℚ) : ℚ := -90 + ((pct + 30) / 20) * 30

/-- Second branch body (clamped pct ≤ -15). -/
def perfPiece2 (pct : ℚ) : ℚ := -60 + ((pct + 15) / 15) * 30

/-- Third branch body (clamped pct ≤ -5). -/
def perfPiece3 (pct : ℚ) : ℚ := -30 + ((pct + 5) / 10) * 30

/-- Fourth branch body (clamped pct ≤ 0). -/
def perfPiece4 (pct : ℚ) : ℚ := (pct / 5) * 30

/-- Fifth branch body (clamped pct ≤ 5). -/
def perfPiece5 (pct : ℚ) : ℚ := (pct / 5) * 30

/-- Sixth branch body (clamped pct ≤ 15). -/
def perfPiece6 (pct : ℚ) : ℚ := 30 + ((pct - 5) / 10) * 30

/-- Seventh branch body (clamped pct ≤ 30). -/
def perfPiece7 (pct : ℚ) : ℚ := 60 + ((pct - 15) / 15) * 30

/-- Eighth branch body (otherwise). -/
def perfPiece8 (pct : ℚ) : ℚ := 90 + ((pct - 30) / 20) * 30

/-- Embeds `mapPerformanceToAngle` from `geometry.js`: clamp to [-50, 50],
then a nine-breakpoint piecewise-linear chain (no easing is applied in this
copy of the function). -/
def mapPerformanceToAngle (performancePercent : ℚ) : ℚ :=
  let pct := max (-50) (min 50 performancePercent)
  if pct ≤ -30 then perfPiece1 pct
  else if pct ≤ -15 then perfPiece2 pct
  else if pct ≤ -5 then perfPiece3 pct
  else if pct ≤ 0 then perfPiece4 pct
  else if pct ≤ 5 then perfPiece5 pct
  else if pct ≤ 15 then perfPiece6 pct
  else if pct ≤ 30 then perfPiece7 pct
  else perfPiece8 pct

/-- Embeds `easeOutQuad` (identical in both sources). -/
def easeOutQuad (t : ℚ) : ℚ := t * (2 - t)

/-- Embeds `mapBarrierToAngle` from `geometry.js`: delegates to
`mapPerformanceToAngle`. -/
def mapBarrierToAngle (barrierPercent : ℚ) : ℚ :=
  mapPerformanceToAngle barrierPercent

/-- Embeds `mapHurdlePercentToAngle` from `geometry.js`: clamp to [50, 150],
then a nine-anchor piecewise-linear chain. -/
def mapHurdlePercentToAngle (hurdlePercent : ℚ) : ℚ :=
  let pct := max 50 (min 150 hurdlePercent)
  if pct ≤ 70 then -90 + ((pct - 70) / 20) * 30
  else if pct ≤ 85 then -60 + ((pct - 85) / 15) * 30
  else if pct ≤ 95 then -30 + ((pct - 95) / 10) * 30
  else if pct ≤ 100 then ((pct - 100) / 5) * 30
  else if pct ≤ 105 then ((pct - 100) / 5) * 30
  else if pct ≤ 115 then 30 + ((pct - 105) / 10) * 30
  else if pct ≤ 130 then 60 + ((pct - 115) / 15) * 30
  else 90 + ((pct - 130) / 20) * 30

/-- Embeds `calculatePerformance` (identical in both sources). -/
def calculatePerformance (initialLevel currentLevel : ℚ) : ℚ :=
  ((currentLevel - initialLevel) / initialLevel) * 100

/-- Embeds the anchor-scanning loop of the static script's
`mapPerformanceToAngle`: walk consecutive anchor pairs, and on the first
segment containing the value interpolate with the eased normalized
position; if no segment matches, return 0. -/
def interpolateAnchors (ease : ℚ → ℚ) : List (ℚ × ℚ) → ℚ → ℚ
  | (p1, a1) :: (p2, a2) :: rest, c =>
      if p1 ≤ c ∧ c ≤ p2 then a1 + ease ((c - p1) / (p2 - p1)) * (a2 - a1)
      else interpolateAnchors ease ((p2, a2) :: rest) c
  | _, _ => 0

/-- The seven-anchor table of the static script's `mapPerformanceToAngle`. -/
def perfAnchors : List (ℚ × ℚ) :=
  [(-50, -120), (-30, -90), (-5, -30), (0, 0), (5, 30), (30, 90), (50, 120)]

/-- Embeds the static script's `mapPerformanceToAngle`: clamp to [-50, 50],
then interpolate over the seven-anchor table with `easeOutQuad`. -/
def mapPerformanceToAngleStatic (performancePercent : ℚ) : ℚ :=
  interpolateAnchors easeOutQuad perfAnchors (max (-50) (min 50 performancePercent))

/-- Embeds the static script's `mapBarrierToAngle`: the closed-form
`-(90 + (|pct| - 30) * 1.5)`, with no clamping and no table. -/
def mapBarrierToAngleStatic (barrierPercent : ℚ) : ℚ :=
  -(90 + (|barrierPercent| - 30) * 1.5)

/-- Modelled from the spec, for comparison with the code: the seven-anchor
eased interpolation written directly, segment by segment — for the clamped
value locate the bracketing anchor pair, compute the normalized position t
in that segment, and interpolate the angle using `easeOutQuad t`. -/
def perfEasedSpec (pct : ℚ) : ℚ :=
  let c := max (-50) (min 50 pct)
  if c ≤ -30 then -120 + easeOutQuad ((c + 50) / 20) * 30
  else if c ≤ -5 then -90 + easeOutQuad ((c + 30) / 25) * 60
  else if c ≤ 0 then -30 + easeOutQuad ((c + 5) / 5) * 30
  else if c ≤ 5 then 0 + easeOutQuad (c / 5) * 30
  else if c ≤ 30 then 30 + easeOutQuad ((c - 5) / 25) * 60
  else 90 + easeOutQuad ((c - 30) / 20) * 30

/-- The nine-anchor table of `mapHurdlePercentToAngle`, as the spec lists it. -/
def hurdleAnchors : List (ℚ × ℚ) :=
  [(50, -120), (70, -90), (85, -60), (95, -30), (100, 0),
   (105, 30), (115, 60), (130, 90), (150, 120)]

/-- Modelled from the spec, for comparison with the code: clamp to
[50, 150] and linearly interpolate (no easing) over the nine-anchor hurdle
table. -/
def hurdleLinearSpec (pct : ℚ) : ℚ :=
  interpolateAnchors (fun t => t) hurdleAnchors (max 50 (min 150 pct))

/-- First loop of `normalizeAngle` in `geometry.js`:
`while (angle > 180) angle -= 360`. -/
def normalizeLoopDown (angle : ℚ) : ℚ :=
  if angle > 180 then normalizeLoopDown (angle - 360) else angle
termination_by (⌈angle⌉ - 180).toNat
decreasing_by
  have h1 : (180 : ℤ) < ⌈angle⌉ := by
    rw [Int.lt_ceil]; push_cast; linarith
  have h2 : ⌈angle - 360⌉ = ⌈angle⌉ - 360 := by
    rw [show (360 : ℚ) = ((360 : ℤ) : ℚ) by norm_num, Int.ceil_sub_int]
  omega

/-- Second loop of `normalizeAngle` in `geometry.js`:
`while (angle < -180) angle += 360`. -/
def normalizeLoopUp (angle : ℚ) : ℚ :=
  if angle < -180 then normalizeLoopUp (angle + 360) else angle
termination_by (-180 - ⌊angle⌋).toNat
decreasing_by
  have h1 : ⌊angle⌋ < (-180 : ℤ) := by
    rw [Int.floor_lt]; push_cast; linarith
  have h2 : ⌊angle + 360⌋ = ⌊angle⌋ + 360 := by
    rw [show (360 : ℚ) = ((360 : ℤ) : ℚ) by norm_num, Int.floor_add_int]
  omega

/-- Embeds `normalizeAngle` from `geometry.js`: the two adjustment loops in
sequence. -/
def normalizeAngle (angle : ℚ) : ℚ :=
  normalizeLoopUp (normalizeLoopDown angle)

/-- A Cartesian point, as returned by `angleToCoords`. -/
structure Point where
  x : ℚ
  y : ℚ

/-- Embeds `angleToCoords` (identical in both sources).  `Math.PI`,
`Math.cos` and `Math.sin` are abstracted as parameters `pi`, `cos` and
`sin`, since the claims about path generation depend only on the angle
arithmetic, never on the numeric value of the trigonometry. -/
def angleToCoords (pi : ℚ) (cos sin : ℚ → ℚ) (angleDeg radius cx cy : ℚ) : Point :=
  let adjustedAngle := angleDeg - 90
  let radians := adjustedAngle * pi / 180
  { x := cx + radius * cos radians, y := cy + radius * sin radians }

/-- The components of the `M ... A ...` path string built by `describeArc`,
in the order they are printed into the string. -/
structure ArcCommand where
  moveX : ℚ
  moveY : ℚ
  radiusX : ℚ
  radiusY : ℚ
  xAxisRotation : ℚ
  largeArcFlag : ℕ
  sweepFlag : ℕ
  endX : ℚ
  endY : ℚ

/-- Embeds `describeArc` from `geometry.js`, with the returned path string
represented by its `ArcCommand` components. -/
def describeArc (pi : ℚ) (cos sin : ℚ → ℚ)
    (cx cy radius startAngle endAngle : ℚ) : ArcCommand :=
  let start := angleToCoords pi cos sin startAngle radius cx cy
  let stop := angleToCoords pi cos sin endAngle radius cx cy
  let largeArcFlag : ℕ := if |endAngle - startAngle| > 180 then 1 else 0
  let sweepFlag : ℕ := if endAngle > startAngle then 1 else 0
  { moveX := start.x, moveY := start.y, radiusX := radius, radiusY := radius,
    xAxisRotation := 0, largeArcFlag := largeArcFlag, sweepFlag := sweepFlag,
    endX := stop.x, endY := stop.y }

/-- A JavaScript number extended with its non-finite values: NaN, positive
and negative Infinity, or a finite value (modelled exactly by ℚ; the
negative zero and rounding of IEEE-754 are not distinguished — none of the
operations below reach them on the inputs the claims use). -/
inductive JSNum where
  | nan : JSNum
  | posInf : JSNum
  | negInf : JSNum
  | num : ℚ → JSNum
deriving DecidableEq

/-- JavaScript unary minus on `JSNum`. -/
def jsNeg : JSNum → JSNum
  | JSNum.nan => JSNum.nan
  | JSNum.posInf => JSNum.negInf
  | JSNum.negInf => JSNum.posInf
  | JSNum.num a => JSNum.num (-a)

/-- JavaScript addition on `JSNum`: NaN absorbs, opposite infinities give
NaN, an infinity absorbs a finite value. -/
def jsAdd : JSNum → JSNum → JSNum
  | JSNum.nan, _ => JSNum.nan
  | _, JSNum.nan => JSNum.nan
  | JSNum.posInf, JSNum.negInf => JSNum.nan
  | JSNum.negInf, JSNum.posInf => JSNum.nan
  | JSNum.posInf, _ => JSNum.posInf
  | _, JSNum.posInf => JSNum.posInf
  | JSNum.negInf, _ => JSNum.negInf
  | _, JSNum.negInf => JSNum.negInf
  | JSNum.num a, JSNum.num b => JSNum.num (a + b)

/-- JavaScript subtraction on `JSNum`. -/
def jsSub (a b : JSNum) : JSNum := jsAdd a (jsNeg b)

/-- JavaScript multiplication on `JSNum`: NaN absorbs, infinity times zero
is NaN, otherwise an infinity keeps the sign rule. -/
def jsMul : JSNum → JSNum → JSNum
  | JSNum.nan, _ => JSNum.nan
  | _, JSNum.nan => JSNum.nan
  | JSNum.posInf, JSNum.posInf => JSNum.posInf
  | JSNum.posInf, JSNum.negInf => JSNum.negInf
  | JSNum.negInf, JSNum.posInf => JSNum.negInf
  | JSNum.negInf, JSNum.negInf => JSNum.posInf
  | JSNum.posInf, JSNum.num b =>
      if b = 0 then JSNum.nan else if 0 < b then JSNum.posInf else JSNum.negInf
  | JSNum.num a, JSNum.posInf =>
      if a = 0 then JSNum.nan else if 0 < a then JSNum.posInf else JSNum.negInf
  | JSNum.negInf, JSNum.num b =>
      if b = 0 then JSNum.nan else if 0 < b then JSNum.negInf else JSNum.posInf
  | JSNum.num a, JSNum.negInf =>
      if a = 0 then JSNum.nan else if 0 < a then JSNum.negInf else JSNum.posInf
  | JSNum.num a, JSNum.num b => JSNum.num (a * b)

/-- JavaScript division on `JSNum` (signed zero not distinguished: a zero
divisor is treated as positive zero, which is what occurs in the sources). -/
def jsDiv : JSNum → JSNum → JSNum
  | JSNum.nan, _ => JSNum.nan
  | _, JSNum.nan => JSNum.nan
  | JSNum.posInf, JSNum.posInf => JSNum.nan
  | JSNum.posInf, JSNum.negInf => JSNum.nan
  | JSNum.negInf, JSNum.posInf => JSNum.nan
  | JSNum.negInf, JSNum.negInf => JSNum.nan
  | JSNum.posInf, JSNum.num b => if 0 ≤ b then JSNum.posInf else JSNum.negInf
  | JSNum.negInf, JSNum.num b => if 0 ≤ b then JSNum.negInf else JSNum.posInf
  | JSNum.num _, JSNum.posInf => JSNum.num 0
  | JSNum.num _, JSNum.negInf => JSNum.num 0
  | JSNum.num a, JSNum.num b =>
      if b = 0 then
        if a = 0 then JSNum.nan
        else if 0 < a then JSNum.posInf else JSNum.negInf
      else JSNum.num (a / b)

/-- The JavaScript comparison `a <= b` on `JSNum`: false whenever either
operand is NaN. -/
def jsLe : JSNum → JSNum → Bool
  | JSNum.nan, _ => false
  | _, JSNum.nan => false
  | JSNum.negInf, _ => true
  | _, JSNum.posInf => true
  | JSNum.posInf, _ => false
  | JSNum.num _, JSNum.negInf => false
  | JSNum.num a, JSNum.num b => decide (a ≤ b)

/-- JavaScript `Math.min` on `JSNum`: NaN if either argument is NaN. -/
def jsMin : JSNum → JSNum → JSNum
  | JSNum.nan, _ => JSNum.nan
  | _, JSNum.nan => JSNum.nan
  | JSNum.negInf, _ => JSNum.negInf
  | _, JSNum.negInf => JSNum.negInf
  | JSNum.posInf, b => b
  | a, JSNum.posInf => a
  | JSNum.num a, JSNum.num b => JSNum.num (min a b)

/-- JavaScript `Math.max` on `JSNum`: NaN if either argument is NaN. -/
def jsMax : JSNum → JSNum → JSNum
  | JSNum.nan, _ => JSNum.nan
  | _, JSNum.nan => JSNum.nan
  | JSNum.posInf, _ => JSNum.posInf
  | _, JSNum.posInf => JSNum.posInf
  | JSNum.negInf, b => b
  | a, JSNum.negInf => a
  | JSNum.num a, JSNum.num b => JSNum.num (max a b)

/-- Embeds `mapPerformanceToAngle` from `geometry.js` again, this time over
`JSNum`, so that its behaviour on NaN and the infinities can be settled.
Branch by branch it is the same chain as `mapPerformanceToAngle`. -/
def mapPerformanceToAngleJS (performancePercent : JSNum) : JSNum :=
  let pct := jsMax (JSNum.num (-50)) (jsMin (JSNum.num 50) performancePercent)
  if jsLe pct (JSNum.num (-30)) then
    jsAdd (JSNum.num (-90)) (jsMul (jsDiv (jsAdd pct (JSNum.num 30)) (JSNum.num 20)) (JSNum.num 30))
  else if jsLe pct (JSNum.num (-15)) then
    jsAdd (JSNum.num (-60)) (jsMul (jsDiv (jsAdd pct (JSNum.num 15)) (JSNum.num 15)) (JSNum.num 30))
  else if jsLe pct (JSNum.num (-5)) then
    jsAdd (JSNum.num (-30)) (jsMul (jsDiv (jsAdd pct (JSNum.num 5)) (JSNum.num 10)) (JSNum.num 30))
  else if jsLe pct (JSNum.num 0) then
    jsMul (jsDiv pct (JSNum.num 5)) (JSNum.num 30)
  else if jsLe pct (JSNum.num 5) then
    jsMul (jsDiv pct (JSNum.num 5)) (JSNum.num 30)
  else if jsLe pct (JSNum.num 15) then
    jsAdd (JSNum.num 30) (jsMul (jsDiv (jsSub pct (JSNum.num 5)) (JSNum.num 10)) (JSNum.num 30))
  else if jsLe pct (JSNum.num 30) then
    jsAdd (JSNum.num 60) (jsMul (jsDiv (jsSub pct (JSNum.num 15)) (JSNum.num 15)) (JSNum.num 30))
  else
    jsAdd (JSNum.num 90) (jsMul (jsDiv (jsSub pct (JSNum.num 30)) (JSNum.num 20)) (JSNum.num 30))

/-- Embeds `mapBarrierToAngle` from `geometry.js` over `JSNum`: delegates. -/
def mapBarrierToAngleJS (barrierPercent : JSNum) : JSNum :=
  mapPerformanceToAngleJS barrierPercent

/-- Embeds `mapHurdlePercentToAngle` from `geometry.js` over `JSNum`. -/
def mapHurdlePercentToAngleJS (hurdlePercent : JSNum) : JSNum :=
  let pct := jsMax (JSNum.num 50) (jsMin (JSNum.num 150) hurdlePercent)
  if jsLe pct (JSNum.num 70) then
    jsAdd (JSNum.num (-90)) (jsMul (jsDiv (jsSub pct (JSNum.num 70)) (JSNum.num 20)) (JSNum.num 30))
  else if jsLe pct (JSNum.num 85) then
    jsAdd (JSNum.num (-60)) (jsMul (jsDiv (jsSub pct (JSNum.num 85)) (JSNum.num 15)) (JSNum.num 30))
  else if jsLe pct (JSNum.num 95) then
    jsAdd (JSNum.num (-30)) (jsMul (jsDiv (jsSub pct (JSNum.num 95)) (JSNum.num 10)) (JSNum.num 30))
  else if jsLe pct (JSNum.num 100) then
    jsMul (jsDiv (jsSub pct (JSNum.num 100)) (JSNum.num 5)) (JSNum.num 30)
  else if jsLe pct (JSNum.num 105) then
    jsMul (jsDiv (jsSub pct (JSNum.num 100)) (JSNum.num 5)) (JSNum.num 30)
  else if jsLe pct (JSNum.num 115) then
    jsAdd (JSNum.num 30) (jsMul (jsDiv (jsSub pct (JSNum.num 105)) (JSNum.num 10)) (JSNum.num 30))
  else if jsLe pct (JSNum.num 130) then
    jsAdd (JSNum.num 60) (jsMul (jsDiv (jsSub pct (JSNum.num 115)) (JSNum.num 15)) (JSNum.num 30))
  else
    jsAdd (JSNum.num 90) (jsMul (jsDiv (jsSub pct (JSNum.num 130)) (JSNum.num 20)) (JSNum.num 30))

/-! ## Helper lemmas -/

/-- The static script's eased seven-anchor scan agrees with the segment-by-
segment spec formulation on every input. -/
theorem mapPerformanceToAngleStatic_eq_perfEasedSpec (p : ℚ) :
    mapPerformanceToAngleStatic p = perfEasedSpec p := by
  unfold mapPerformanceToAngleStatic perfEasedSpec perfAnchors
  have h1 : -50 ≤ max (-50) (min 50 p) := le_max_left _ _
  have h2 : max (-50) (min 50 p) ≤ 50 := max_le (by norm_num) (min_le_left _ _)
  set c := max (-50) (min 50 p) with hc
  simp only [interpolateAnchors]
  unfold easeOutQuad
  rcases le_or_lt c (-30) with s1 | s1
  · rw [if_pos ⟨h1, s1⟩, if_pos s1]; ring
  · rw [if_neg (show ¬((-50:ℚ) ≤ c ∧ c ≤ -30) from fun hx => absurd hx.2 (by linarith)),
        if_neg (show ¬(c ≤ ((-30):ℚ)) by linarith)]
    rcases le_or_lt c (-5) with s2 | s2
    · rw [if_pos ⟨by linarith, s2⟩, if_pos s2]; ring
    · rw [if_neg (show ¬((-30:ℚ) ≤ c ∧ c ≤ -5) from fun hx => absurd hx.2 (by linarith)),
          if_neg (show ¬(c ≤ ((-5):ℚ)) by linarith)]
      rcases le_or_lt c 0 with s3 | s3
      · rw [if_pos ⟨by linarith, s3⟩, if_pos s3]; ring
      · rw [if_neg (show ¬((-5:ℚ) ≤ c ∧ c ≤ 0) from fun hx => absurd hx.2 (by linarith)),
            if_neg (show ¬(c ≤ ((0):ℚ)) by linarith)]
        rcases le_or_lt c 5 with s4 | s4
        · rw [if_pos ⟨by linarith, s4⟩, if_pos s4]; ring
        · rw [if_neg (show ¬((0:ℚ) ≤ c ∧ c ≤ 5) from fun hx => absurd hx.2 (by linarith)),
              if_neg (show ¬(c ≤ ((5):ℚ)) by linarith)]
          rcases le_or_lt c 30 with s5 | s5
          · rw [if_pos ⟨by linarith, s5⟩, if_pos s5]; ring
          · rw [if_neg (show ¬((5:ℚ) ≤ c ∧ c ≤ 30) from fun hx => absurd hx.2 (by linarith)),
                if_neg (show ¬(c ≤ ((30):ℚ)) by linarith),
                if_pos ⟨by linarith, h2⟩]
            ring

set_option maxHeartbeats 2000000 in
/-- Monotonicity of the geometry module's performance mapping on its
clamped domain. -/
theorem mapPerformanceToAngle_mono (x y : ℚ) (hx : -50 ≤ x) (hxy : x ≤ y) (hy : y ≤ 50) :
    mapPerformanceToAngle x ≤ mapPerformanceToAngle y := by
  unfold mapPerformanceToAngle
  rw [min_eq_right (by linarith : x ≤ (50:ℚ)), max_eq_right hx,
      min_eq_right hy, max_eq_right (by linarith : (-50:ℚ) ≤ y)]
  dsimp only
  unfold perfPiece1 perfPiece2 perfPiece3 perfPiece4 perfPiece5 perfPiece6 perfPiece7 perfPiece8
  split_ifs <;> linarith

set_option maxHeartbeats 2000000 in
/-- Monotonicity of the geometry module's hurdle mapping on its clamped
domain. -/
theorem mapHurdlePercentToAngle_mono (x y : ℚ) (hx : 50 ≤ x) (hxy : x ≤ y) (hy : y ≤ 150) :
    mapHurdlePercentToAngle x ≤ mapHurdlePercentToAngle y := by
  unfold mapHurdlePercentToAngle
  rw [min_eq_right (by linarith : x ≤ (150:ℚ)), max_eq_right hx,
      min_eq_right hy, max_eq_right (by linarith : (50:ℚ) ≤ y)]
  dsimp only
  split_ifs <;> linarith

/-- The geometry module's hurdle mapping agrees with the spec's linear
interpolation over the nine-anchor table on every input. -/
theorem mapHurdlePercentToAngle_eq_hurdleLinearSpec (p : ℚ) :
    mapHurdlePercentToAngle p = hurdleLinearSpec p := by
  unfold mapHurdlePercentToAngle hurdleLinearSpec hurdleAnchors
  have h1 : 50 ≤ max 50 (min 150 p) := le_max_left _ _
  have h2 : max 50 (min 150 p) ≤ 150 := max_le (by norm_num) (min_le_left _ _)
  set c := max 50 (min 150 p) with hc
  simp only [interpolateAnchors]
  rcases le_or_lt c 70 with s1 | s1
  · rw [if_pos s1, if_pos ⟨h1, s1⟩]; ring
  · rw [if_neg (show ¬(c ≤ (70:ℚ)) by linarith),
        if_neg (show ¬((50:ℚ) ≤ c ∧ c ≤ 70) from fun hx => absurd hx.2 (by linarith))]
    rcases le_or_lt c 85 with s2 | s2
    · rw [if_pos s2, if_pos ⟨by linarith, s2⟩]; ring
    · rw [if_neg (show ¬(c ≤ (85:ℚ)) by linarith),
          if_neg (show ¬((70:ℚ) ≤ c ∧ c ≤ 85) from fun hx => absurd hx.2 (by linarith))]
      rcases le_or_lt c 95 with s3 | s3
      · rw [if_pos s3, if_pos ⟨by linarith, s3⟩]; ring
      · rw [if_neg (show ¬(c ≤ (95:ℚ)) by linarith),
            if_neg (show ¬((85:ℚ) ≤ c ∧ c ≤ 95) from fun hx => absurd hx.2 (by linarith))]
        rcases le_or_lt c 100 with s4 | s4
        · rw [if_pos s4, if_pos ⟨by linarith, s4⟩]; ring
        · rw [if_neg (show ¬(c ≤ (100:ℚ)) by linarith),
              if_neg (show ¬((95:ℚ) ≤ c ∧ c ≤ 100) from fun hx => absurd hx.2 (by linarith))]
          rcases le_or_lt c 105 with s5 | s5
          · rw [if_pos s5, if_pos ⟨by linarith, s5⟩]; ring
          · rw [if_neg (show ¬(c ≤ (105:ℚ)) by linarith),
                if_neg (show ¬((100:ℚ) ≤ c ∧ c ≤ 105) from fun hx => absurd hx.2 (by linarith))]
            rcases le_or_lt c 115 with s6 | s6
            · rw [if_pos s6, if_pos ⟨by linarith, s6⟩]; ring
            · rw [if_neg (show ¬(c ≤ (115:ℚ)) by linarith),
                  if_neg (show ¬((105:ℚ) ≤ c ∧ c ≤ 115) from fun hx => absurd hx.2 (by linarith))]
              rcases le_or_lt c 130 with s7 | s7
              · rw [if_pos s7, if_pos ⟨by linarith, s7⟩]; ring
              · rw [if_neg (show ¬(c ≤ (130:ℚ)) by linarith),
                    if_neg (show ¬((115:ℚ) ≤ c ∧ c ≤ 130) from fun hx => absurd hx.2 (by linarith)),
                    if_pos ⟨by linarith, h2⟩]
                ring

/-- The first `normalizeAngle` loop only ever stops at or below 180. -/
theorem normalizeLoopDown_le (a : ℚ) : normalizeLoopDown a ≤ 180 := by
  induction a using normalizeLoopDown.induct with
  | case1 x h ih => rw [normalizeLoopDown, if_pos h]; exact ih
  | case2 x h => rw [normalizeLoopDown, if_neg h]; linarith

/-- The first `normalizeAngle` loop changes its input by a multiple of 360. -/
theorem normalizeLoopDown_congr (a : ℚ) : ∃ k : ℤ, normalizeLoopDown a = a + 360 * k := by
  induction a using normalizeLoopDown.induct with
  | case1 x h ih =>
    obtain ⟨k, hk⟩ := ih
    exact ⟨k - 1, by rw [normalizeLoopDown, if_pos h, hk]; push_cast; ring⟩
  | case2 x h => exact ⟨0, by rw [normalizeLoopDown, if_neg h]; push_cast; ring⟩

/-- The second `normalizeAngle` loop only ever stops at or above -180. -/
theorem normalizeLoopUp_ge (a : ℚ) : -180 ≤ normalizeLoopUp a := by
  induction a using normalizeLoopUp.induct with
  | case1 x h ih => rw [normalizeLoopUp, if_pos h]; exact ih
  | case2 x h => rw [normalizeLoopUp, if_neg h]; linarith

/-- The second `normalizeAngle` loop preserves an upper bound of 180. -/
theorem normalizeLoopUp_le (a : ℚ) (ha : a ≤ 180) : normalizeLoopUp a ≤ 180 := by
  induction a using normalizeLoopUp.induct with
  | case1 x h ih => rw [normalizeLoopUp, if_pos h]; exact ih (by linarith)
  | case2 x h => rw [normalizeLoopUp, if_neg h]; exact ha

/-- The second `normalizeAngle` loop changes its input by a multiple of 360. -/
theorem normalizeLoopUp_congr (a : ℚ) : ∃ k : ℤ, normalizeLoopUp a = a + 360 * k := by
  induction a using normalizeLoopUp.induct with
  | case1 x h ih =>
    obtain ⟨k, hk⟩ := ih
    exact ⟨k + 1, by rw [normalizeLoopUp, if_pos h, hk]; push_cast; ring⟩
  | case2 x h => exact ⟨0, by rw [normalizeLoopUp, if_neg h]; push_cast; ring⟩

/-! ## Claim theorems -/

/-- C1, counterexample: the geometry module's `mapPerformanceToAngle` does
not follow the eased seven-anchor table — at pct = 15 (inside [-50, 50]) it
returns 60, while the table's eased interpolation gives 68.4 = 342/5. -/
theorem mapPerformanceToAngle_ne_eased_at_15 :
    mapPerformanceToAngle 15 = 60 ∧ perfEasedSpec 15 = 342 / 5 ∧
      ((60 : ℚ) ≠ 342 / 5) := by
  refine ⟨?_, ?_, by norm_num⟩
  · norm_num [mapPerformanceToAngle, perfPiece6]
  · norm_num [perfEasedSpec, easeOutQuad]

/-- C1, amended: only the static script's `mapPerformanceToAngle` computes
the eased seven-anchor interpolation (for every input); the geometry
module's copy is piecewise-linear over nine breakpoints and deviates from
the eased table between anchors, e.g. at pct = 15 where it gives 60 instead
of 68.4. -/
theorem mapPerformanceToAngleStatic_follows_eased_table :
    (∀ p : ℚ, mapPerformanceToAngleStatic p = perfEasedSpec p) ∧
      mapPerformanceToAngle 15 = 60 ∧ perfEasedSpec 15 = 342 / 5 := by
  refine ⟨mapPerformanceToAngleStatic_eq_perfEasedSpec, ?_, ?_⟩
  · norm_num [mapPerformanceToAngle, perfPiece6]
  · norm_num [perfEasedSpec, easeOutQuad]

/-- C2: the two `mapBarrierToAngle` implementations are not equivalent —
at pct = 10 (away from every anchor) the geometry module's delegating
version gives 45 while the static script's closed form gives -60. -/
theorem mapBarrierToAngle_implementations_differ :
    ∃ pct : ℚ, mapBarrierToAngle pct ≠ mapBarrierToAngleStatic pct := by
  refine ⟨10, ?_⟩
  have h1 : mapBarrierToAngle 10 = 45 := by
    norm_num [mapBarrierToAngle, mapPerformanceToAngle, perfPiece6]
  have h2 : mapBarrierToAngleStatic 10 = -60 := by
    norm_num [mapBarrierToAngleStatic]
  rw [h1, h2]; norm_num

/-- C3, counterexample: a non-finite input does not map to angle 0 — the
geometry module's `mapPerformanceToAngle` at +Infinity clamps to 50 and
returns 120, and at NaN returns NaN, never 0. -/
theorem mapPerformanceToAngleJS_nonfinite_not_zero :
    mapPerformanceToAngleJS JSNum.posInf = JSNum.num 120 ∧
      mapPerformanceToAngleJS JSNum.nan = JSNum.nan ∧
      JSNum.num (120 : ℚ) ≠ JSNum.num 0 ∧ JSNum.nan ≠ JSNum.num 0 := by
  refine ⟨?_, ?_, by simp, by simp⟩ <;>
    norm_num [mapPerformanceToAngleJS, jsMax, jsMin, jsLe, jsAdd, jsSub, jsNeg,
      jsMul, jsDiv, max_def, min_def]

/-- C3, amended: the geometry module's three mapping functions are total on
non-finite input (no error path), but instead of defaulting to 0 they clamp
+Infinity to the upper bound (angle 120), clamp -Infinity to the lower
bound (angle -120), and propagate NaN. -/
theorem mapping_functions_nonfinite_behaviour :
    mapPerformanceToAngleJS JSNum.nan = JSNum.nan ∧
      mapBarrierToAngleJS JSNum.nan = JSNum.nan ∧
      mapHurdlePercentToAngleJS JSNum.nan = JSNum.nan ∧
      mapPerformanceToAngleJS JSNum.posInf = JSNum.num 120 ∧
      mapBarrierToAngleJS JSNum.posInf = JSNum.num 120 ∧
      mapHurdlePercentToAngleJS JSNum.posInf = JSNum.num 120 ∧
      mapPerformanceToAngleJS JSNum.negInf = JSNum.num (-120) ∧
      mapBarrierToAngleJS JSNum.negInf = JSNum.num (-120) ∧
      mapHurdlePercentToAngleJS JSNum.negInf = JSNum.num (-120) := by
  refine ⟨?_, ?_, ?_, ?_, ?_, ?_, ?_, ?_, ?_⟩ <;>
    norm_num [mapPerformanceToAngleJS, mapBarrierToAngleJS, mapHurdlePercentToAngleJS,
      jsMax, jsMin, jsLe, jsAdd, jsSub, jsNeg, jsMul, jsDiv, max_def, min_def]

/-- C4: `mapPerformanceToAngle` hits the anchor values 0, -120 and 120 at
0, -50 and 50, and clamps out-of-range input to the boundary. -/
theorem mapPerformanceToAngle_boundary_and_clamp :
    mapPerformanceToAngle 0 = 0 ∧ mapPerformanceToAngle (-50) = -120 ∧
      mapPerformanceToAngle 50 = 120 ∧
      mapPerformanceToAngle 999 = mapPerformanceToAngle 50 ∧
      mapPerformanceToAngle (-999) = mapPerformanceToAngle (-50) := by
  refine ⟨?_, ?_, ?_, ?_, ?_⟩ <;>
    norm_num [mapPerformanceToAngle, perfPiece1, perfPiece4, perfPiece8]

/-- C5: `mapPerformanceToAngle` is monotone non-decreasing on [-50, 50],
and adjacent pieces of its chain agree at every shared breakpoint. -/
theorem mapPerformanceToAngle_monotone_and_continuous :
    (∀ x y : ℚ, -50 ≤ x → x ≤ y → y ≤ 50 →
        mapPerformanceToAngle x ≤ mapPerformanceToAngle y) ∧
      perfPiece1 (-30) = perfPiece2 (-30) ∧ perfPiece2 (-15) = perfPiece3 (-15) ∧
      perfPiece3 (-5) = perfPiece4 (-5) ∧ perfPiece4 0 = perfPiece5 0 ∧
      perfPiece5 5 = perfPiece6 5 ∧ perfPiece6 15 = perfPiece7 15 ∧
      perfPiece7 30 = perfPiece8 30 := by
  refine ⟨mapPerformanceToAngle_mono, ?_⟩
  norm_num [perfPiece1, perfPiece2, perfPiece3, perfPiece4, perfPiece5, perfPiece6,
    perfPiece7, perfPiece8]

/-- C5, witness: the monotonicity part applied at the concrete pair (0, 10). -/
theorem mapPerformanceToAngle_monotone_and_continuous_witness :
    ((-50 : ℚ) ≤ 0) ∧ ((0 : ℚ) ≤ 10) ∧ ((10 : ℚ) ≤ 50) ∧
      mapPerformanceToAngle 0 ≤ mapPerformanceToAngle 10 :=
  ⟨by norm_num, by norm_num, by norm_num,
    mapPerformanceToAngle_monotone_and_continuous.1 0 10 (by norm_num) (by norm_num)
      (by norm_num)⟩

/-- C6, counterexample: `normalizeAngle` at -180 returns -180, which is
outside the half-open interval (-180, 180] the claim states. -/
theorem normalizeAngle_neg180_escapes_claimed_range :
    normalizeAngle ((-180) : ℚ) = -180 ∧ ¬ ((-180 : ℚ) < -180) := by
  constructor
  · rw [normalizeAngle, normalizeLoopDown]
    norm_num
    rw [normalizeLoopUp]
    norm_num
  · norm_num

/-- C6, amended: for every input, `normalizeAngle` lands in the closed
interval [-180, 180] (the endpoint -180 is attained, e.g. at -180 itself)
and differs from the input by an integer multiple of 360; the claim's
concrete values 370 ↦ 10, -190 ↦ 170 and 180 ↦ 180 all hold. -/
theorem normalizeAngle_range_and_congruence :
    (∀ a : ℚ, -180 ≤ normalizeAngle a ∧ normalizeAngle a ≤ 180 ∧
        ∃ k : ℤ, normalizeAngle a = a + 360 * k) ∧
      normalizeAngle 370 = 10 ∧ normalizeAngle (-190) = 170 ∧
      normalizeAngle 180 = 180 := by
  refine ⟨fun a => ?_, ?_, ?_, ?_⟩
  · refine ⟨normalizeLoopUp_ge _, normalizeLoopUp_le _ (normalizeLoopDown_le a), ?_⟩
    obtain ⟨k1, h1⟩ := normalizeLoopDown_congr a
    obtain ⟨k2, h2⟩ := normalizeLoopUp_congr (normalizeLoopDown a)
    exact ⟨k1 + k2, by rw [normalizeAngle, h2, h1]; push_cast; ring⟩
  · rw [normalizeAngle, normalizeLoopDown]
    norm_num
    rw [normalizeLoopDown]
    norm_num
    rw [normalizeLoopUp]
    norm_num
  · rw [normalizeAngle, normalizeLoopDown]
    norm_num
    rw [normalizeLoopUp]
    norm_num
    rw [normalizeLoopUp]
    norm_num
  · rw [normalizeAngle, normalizeLoopDown]
    norm_num
    rw [normalizeLoopUp]
    norm_num

/-- C7: `calculateRotationAngle` is the fixed-rate rotation
daysBetween * (360 / 3650); it is 0 when the two dates coincide and exactly
360 when the current date is 3650 days (in milliseconds) after the start. -/
theorem calculateRotationAngle_fixed_rate :
    (∀ s c : ℚ, calculateRotationAngle s c = daysBetween s c * (360 / 3650)) ∧
      (∀ d : ℚ, calculateRotationAngle d d = 0) ∧
      (∀ s : ℚ, calculateRotationAngle s (s + 3650 * 86400000) = 360) := by
  refine ⟨fun s c => ?_, fun d => ?_, fun s => ?_⟩ <;>
    norm_num [calculateRotationAngle, daysBetween, ANGLE_PER_DAY, DAYS_IN_10_YEARS]

/-- C8: `mapHurdlePercentToAngle` equals clamping to [50, 150] followed by
linear (un-eased) interpolation over the nine-anchor table, maps 100 to 0
and the clamped endpoints to -120 and 120, and is monotone non-decreasing
on [50, 150]. -/
theorem mapHurdlePercentToAngle_spec :
    (∀ p : ℚ, mapHurdlePercentToAngle p = hurdleLinearSpec p) ∧
      mapHurdlePercentToAngle 100 = 0 ∧ mapHurdlePercentToAngle 50 = -120 ∧
      mapHurdlePercentToAngle 150 = 120 ∧
      (∀ x y : ℚ, 50 ≤ x → x ≤ y → y ≤ 150 →
        mapHurdlePercentToAngle x ≤ mapHurdlePercentToAngle y) := by
  refine ⟨mapHurdlePercentToAngle_eq_hurdleLinearSpec, ?_, ?_, ?_,
    mapHurdlePercentToAngle_mono⟩ <;>
    norm_num [mapHurdlePercentToAngle]

/-- C8, witness: the monotonicity part applied at the concrete pair
(60, 140). -/
theorem mapHurdlePercentToAngle_spec_witness :
    ((50 : ℚ) ≤ 60) ∧ ((60 : ℚ) ≤ 140) ∧ ((140 : ℚ) ≤ 150) ∧
      mapHurdlePercentToAngle 60 ≤ mapHurdlePercentToAngle 140 :=
  ⟨by norm_num, by norm_num, by norm_num,
    mapHurdlePercentToAngle_spec.2.2.2.2 60 140 (by norm_num) (by norm_num) (by norm_num)⟩

/-- C9: in the arc command built by `describeArc`, the large-arc flag is 1
exactly when the absolute angular span exceeds 180, and the sweep flag is 1
exactly when the end angle exceeds the start angle — whatever values pi,
cos and sin take. -/
theorem describeArc_flags (pi : ℚ) (cos sin : ℚ → ℚ) (cx cy r s e : ℚ) :
    ((describeArc pi cos sin cx cy r s e).largeArcFlag = 1 ↔ |e - s| > 180) ∧
      ((describeArc pi cos sin cx cy r s e).sweepFlag = 1 ↔ s < e) := by
  unfold describeArc
  constructor <;> dsimp only <;> split_ifs with h <;> simp [h]

/-- C10: `calculateObservationTickAngle` ignores its currentDate argument —
any two choices give the same result, namely
-(daysBetween startDate observationDate * (360 / 3650)). -/
theorem calculateObservationTickAngle_ignores_currentDate (s o c1 c2 : ℚ) :
    calculateObservationTickAngle s o c1 = calculateObservationTickAngle s o c2 ∧
      calculateObservationTickAngle s o c1 = -(daysBetween s o * (360 / 3650)) := by
  constructor
  · rfl
  · norm_num [calculateObservationTickAngle, ANGLE_PER_DAY, DAYS_IN_10_YEARS]
